import Mathlib

/-!
Verification of the interpolation core of the PhucTH-Geospatial-Py repository
(`src/geospatialtools/interpolators.py`), a shallow embedding of the three
functions `get_grid_from_df`, `getInterpArray_griddata` and
`getInterpArray_rbf` together with proofs of the behavioural claims made by
the repository's specification.

Modelling conventions:
- Python floats are modelled as `Option ℚ`, with `none` playing the role of
  NaN; `np.isnan` becomes `Option.isNone`.  Claims that depend on genuine
  IEEE-754 rounding are outside this model.
- A pandas `DataFrame` is modelled as an association list from column name to
  column (list of values); `df[c]` becomes a lookup that fails with a
  `KeyError`, exactly as pandas does for a missing column.
- `scipy.interpolate.griddata` and `scipy.interpolate.Rbf` are external
  library calls.  Their documented call structure is modelled concretely:
  both first construct an interpolant from the (NaN-filtered) data — a stage
  that can raise (`QhullError` for a degenerate triangulation, `ValueError`
  for an unknown griddata method, `LinAlgError`/`ZeroDivisionError` for a
  singular radial-basis fit) — and, on success, evaluate it pointwise over
  the grid, so a returned array has the grid's shape.  `Rbf.__call__`
  additionally raises `ValueError("Array lengths must be equal")` when the
  two grid arrays differ in shape, and `griddata` broadcasts its `xi` tuple
  (a no-op for equal shapes; for unequal shapes numpy broadcasting, which
  may itself raise).  The interpolant construction, its numeric values and
  the unequal-shape broadcast are abstract parameters (`InterpLib`), so
  every theorem below holds for every possible behaviour of the library,
  including every raising behaviour.
-/

/-- A Python float: `none` models NaN. -/
abbrev PyFloat := Option ℚ

/-- `np.isnan` on the model. -/
def isnan (v : PyFloat) : Bool := v.isNone

/-- A DataFrame column. -/
abbrev Col := List PyFloat

/-- A 2-D numpy array, as a list of rows. -/
abbrev Mat := List Col

/-- A pandas DataFrame: named columns. -/
abbrev DataFrame := List (String × Col)

/-- The shape of a 2-D array: the list of its row lengths
(it records both the number of rows and the length of every row). -/
def matShape (M : Mat) : List Nat := M.map List.length

/-- The exceptions the embedded code and the modelled library calls can
raise. -/
inductive PyError where
  | valueError : String → PyError
  | keyError : String → PyError
  | qhullError : String → PyError
  | linAlgError : String → PyError
deriving DecidableEq

instance {ε α : Type} [DecidableEq ε] [DecidableEq α] : DecidableEq (Except ε α) := fun x y =>
  match x, y with
  | Except.error a, Except.error b =>
    if h : a = b then isTrue (by rw [h]) else isFalse (by intro he; cases he; exact h rfl)
  | Except.error _, Except.ok _ => isFalse (by intro h; cases h)
  | Except.ok _, Except.error _ => isFalse (by intro h; cases h)
  | Except.ok a, Except.ok b =>
    if h : a = b then isTrue (by rw [h]) else isFalse (by intro he; cases he; exact h rfl)

/-- `df[c]`: column access, raising `KeyError` for a missing column,
as pandas does. -/
def dfGet (df : DataFrame) (c : String) : Except PyError Col :=
  match df.lookup c with
  | some col => Except.ok col
  | none => Except.error (PyError.keyError c)

/-- Python's `str.lower()` restricted to the basic latin range (the method
names the code compares against are ASCII, where Python's `lower` and this
character map agree). -/
def pyLower (s : String) : String := String.mk (s.data.map Char.toLower)

/-- The ordering `np.sort` uses on the model: numeric order on numbers,
with NaN sorted after every number (numpy places NaNs last). -/
def pyLE : PyFloat → PyFloat → Prop
  | some a, some b => a ≤ b
  | some _, none => True
  | none, some _ => False
  | none, none => True

instance : DecidableRel pyLE := fun a b =>
  match a, b with
  | some a, some b => inferInstanceAs (Decidable (a ≤ b))
  | some _, none => inferInstanceAs (Decidable True)
  | none, some _ => inferInstanceAs (Decidable False)
  | none, none => inferInstanceAs (Decidable True)

instance : IsTotal PyFloat pyLE where
  total a b := by
    cases a <;> cases b <;> simp [pyLE]
    exact le_total _ _

instance : IsTrans PyFloat pyLE where
  trans a b c hab hbc := by
    cases a <;> cases b <;> cases c <;> simp_all [pyLE]
    exact le_trans hab hbc

/-- `np.sort` on a 1-D array (ascending, NaNs last). -/
def npSort (l : Col) : Col := l.insertionSort pyLE

/-- `pd.unique`: the distinct values of a column (a single NaN is kept, as
pandas does; the order of survivors is irrelevant here because the code
sorts afterwards). -/
def pdUnique (l : Col) : Col := l.dedup

/-- `np.meshgrid xs ys` (default indexing): `Xg` has one row per element of
`ys`, each row a copy of `xs`; `Yg[i][j] = ys[i]`. -/
def meshgrid (xs ys : Col) : Mat × Mat :=
  (ys.map (fun _ => xs), ys.map (fun v => xs.map (fun _ => v)))

/-- Embedding of `get_grid_from_df` (interpolators.py lines 5-20):
sorted unique x-values and y-values, `np.meshgrid` of the two. -/
def get_grid_from_df (df : DataFrame) (points_xy : String × String) :
    Except PyError (Mat × Mat) := do
  let cx ← dfGet df points_xy.1
  let cy ← dfGet df points_xy.2
  let x_unique := npSort (pdUnique cx)
  let y_unique := npSort (pdUnique cy)
  pure (meshgrid x_unique y_unique)

/-- The seven kernel names `scipy.interpolate.Rbf` supports, as listed on
line 118 of interpolators.py. -/
def rbfKernels : List String :=
  ["linear", "cubic", "quintic", "thin_plate", "multiquadric", "inverse", "gaussian"]

/-- Embedding of the method-name-to-kernel mapping of `getInterpArray_rbf`
(interpolators.py lines 117-125): lowercase the requested name (`None`
becomes the empty string via `my_method or ""`); a supported kernel name is
used verbatim, `nearest` falls back to `linear`, anything else falls back to
`thin_plate`. -/
def rbfKernelFor (my_method : Option String) : String :=
  let method_lower := pyLower (my_method.getD "")
  if method_lower ∈ rbfKernels then method_lower
  else if method_lower = "nearest" then "linear"
  else "thin_plate"

/-- The `smooth` argument `getInterpArray_rbf` passes to `Rbf`
(interpolators.py line 128): the literal `0.0`. -/
def rbfSmooth : ℚ := 0

/-- The abstract, fallible core of the scipy interpolation routines.
`griddataFit method pts vals` is `scipy.interpolate.griddata`'s construction
of the interpolant from the (already NaN-filtered) data: it either raises
(`QhullError` for a degenerate triangulation with `linear`/`cubic`,
`ValueError` for an unknown method name, ...) or yields the function the
library then evaluates at each grid node.  `rbfFit kernel smooth xs ys zs`
is the `Rbf(x, y, z, function=kernel, smooth=smooth)` constructor: it either
raises (`LinAlgError`/`ZeroDivisionError` on singular or degenerate data) or
yields the fitted model.  `griddataBroadcast Xg Yg` is numpy's broadcasting
of the `xi` tuple for grid arrays of unequal shape (it may raise for
incompatible shapes, or yield the broadcast pair); for equal shapes
broadcasting is the identity and is modelled concretely. -/
structure InterpLib where
  griddataFit : String → List (PyFloat × PyFloat) → Col →
    Except PyError (PyFloat → PyFloat → PyFloat)
  griddataBroadcast : Mat → Mat → Except PyError (Mat × Mat)
  rbfFit : String → ℚ → Col → Col → Col →
    Except PyError (PyFloat → PyFloat → PyFloat)

/-- Pointwise evaluation of a successfully constructed interpolant over the
two grid coordinate arrays: the documented success behaviour of
`griddata(..., (Xg, Yg), ...)` and of calling a fitted `Rbf` model as
`rbf(Xg, Yg)` on same-shaped arrays. -/
def evalOnGrid (f : PyFloat → PyFloat → PyFloat) (Xg Yg : Mat) : Mat :=
  List.zipWith (fun xr yr => List.zipWith f xr yr) Xg Yg

/-- The error message raised on lines 52 and 105 of interpolators.py
(transliterated to ASCII). -/
def gridErrMsg : String := "my_grid phai la tuple (Xg, Yg) 2D duoc tao boi np.meshgrid."

/-- The message of the `ValueError` `Rbf.__call__` raises when its argument
arrays differ in shape. -/
def rbfShapeErrMsg : String := "Array lengths must be equal"

/-- The composite library call `griddata(points, values, (Xg, Yg), method)`:
broadcast the `xi` tuple (the identity for same-shaped arrays, the abstract
`griddataBroadcast` otherwise), construct the interpolant — which may raise —
and evaluate it pointwise over the grid. -/
def griddataCall (L : InterpLib) (method : String)
    (pts : List (PyFloat × PyFloat)) (vals : Col) (Xg Yg : Mat) :
    Except PyError Mat :=
  if matShape Xg = matShape Yg then do
    let interp ← L.griddataFit method pts vals
    pure (evalOnGrid interp Xg Yg)
  else do
    let bc ← L.griddataBroadcast Xg Yg
    let interp ← L.griddataFit method pts vals
    pure (evalOnGrid interp bc.1 bc.2)

/-- The composite library call `Rbf(x, y, z, function=kernel, smooth=sm)`
followed by `rbf(Xg, Yg)`: the fit may raise; the call itself raises
`ValueError("Array lengths must be equal")` for grid arrays of unequal
shape, and otherwise evaluates the model pointwise over the grid. -/
def rbfCall (L : InterpLib) (kernel : String) (sm : ℚ) (xs ys zs : Col)
    (Xg Yg : Mat) : Except PyError Mat := do
  let rbf ← L.rbfFit kernel sm xs ys zs
  if matShape Xg = matShape Yg then pure (evalOnGrid rbf Xg Yg)
  else Except.error (PyError.valueError rbfShapeErrMsg)

/-- The NaN mask of `getInterpArray_griddata` (interpolators.py lines 58-61):
keep exactly the rows whose value and both coordinates are non-NaN
(`mask = ~np.isnan(values) & ~np.isnan(points).any(axis=1)`). -/
def griddataFiltered (points : List (PyFloat × PyFloat)) (values : Col) :
    List ((PyFloat × PyFloat) × PyFloat) :=
  (points.zip values).filter fun r => !isnan r.2 && !(isnan r.1.1 || isnan r.1.2)

/-- Embedding of `getInterpArray_griddata` (interpolators.py lines 22-67):
reject a missing grid or one that is not a pair (`my_grid is None or
len(my_grid) != 2`), extract the coordinate pair array and the value array,
drop every row with a NaN coordinate or value, then evaluate
`scipy.interpolate.griddata` on the grid. -/
def getInterpArray_griddata (L : InterpLib) (df : DataFrame)
    (points_xy : String × String) (feature : String)
    (my_grid : Option (List Mat)) (my_method : String) : Except PyError Mat :=
  match my_grid with
  | some [Xg, Yg] => do
    let cx ← dfGet df points_xy.1
    let cy ← dfGet df points_xy.2
    let values ← dfGet df feature
    let points := cx.zip cy
    let kept := griddataFiltered points values
    let pts := kept.map (fun r => r.1)
    let vals := kept.map (fun r => r.2)
    griddataCall L my_method pts vals Xg Yg
  | _ => Except.error (PyError.valueError gridErrMsg)

/-- The NaN mask of `getInterpArray_rbf` (interpolators.py lines 112-114):
keep exactly the rows with non-NaN x, y and z
(`mask = ~np.isnan(x) & ~np.isnan(y) & ~np.isnan(z)`). -/
def rbfFiltered (x y z : Col) : List (PyFloat × PyFloat × PyFloat) :=
  (x.zip (y.zip z)).filter fun r => !isnan r.1 && !isnan r.2.1 && !isnan r.2.2

/-- Embedding of `getInterpArray_rbf` (interpolators.py lines 69-134):
the same grid check, per-column extraction of x, y and z, the NaN mask of
lines 113-114, the kernel-name mapping of lines 117-125, then fitting
`Rbf(x, y, z, function=kernel, smooth=0.0)` and evaluating it on the grid. -/
def getInterpArray_rbf (L : InterpLib) (df : DataFrame)
    (points_xy : String × String) (feature : String)
    (my_grid : Option (List Mat)) (my_method : Option String) : Except PyError Mat :=
  match my_grid with
  | some [Xg, Yg] => do
    let x ← dfGet df points_xy.1
    let y ← dfGet df points_xy.2
    let z ← dfGet df feature
    let kept := rbfFiltered x y z
    let x2 := kept.map (fun r => r.1)
    let y2 := kept.map (fun r => r.2.1)
    let z2 := kept.map (fun r => r.2.2)
    let rbf_func := rbfKernelFor my_method
    rbfCall L rbf_func rbfSmooth x2 y2 z2 Xg Yg
  | _ => Except.error (PyError.valueError gridErrMsg)

/-- The grid precondition actually checked by both interpolation operations
(interpolators.py lines 51-52 and 104-105): the grid argument is present and
has exactly two entries.  Nothing else about the grid is validated. -/
def gridArgOk : Option (List Mat) → Bool
  | some [_, _] => true
  | _ => false

/-- A concrete instantiation of the abstract library on which every fit
succeeds and evaluates to 0, used to evaluate the embedding on concrete
inputs. -/
def constLib : InterpLib where
  griddataFit := fun _ _ _ => Except.ok (fun _ _ => some 0)
  griddataBroadcast := fun Xg Yg => Except.ok (Xg, Yg)
  rbfFit := fun _ _ _ _ _ => Except.ok (fun _ _ => some 0)

/-- A library instantiation whose radial-basis values reveal which kernel
was used (1 for `thin_plate`, 0 otherwise), used to exhibit that a caller
cannot distinguish a fallback call from an explicit one. -/
def probeLib : InterpLib where
  griddataFit := fun _ _ _ => Except.ok (fun _ _ => some 0)
  griddataBroadcast := fun Xg Yg => Except.ok (Xg, Yg)
  rbfFit := fun k _ _ _ _ =>
    Except.ok (fun _ _ => if k = "thin_plate" then some 1 else some 0)

/-- The message of scipy's `QhullError` for a degenerate triangulation. -/
def qhullMsg : String := "QH6214 qhull input error: not enough points to construct initial simplex"

/-- The message of numpy's `LinAlgError` for a singular system. -/
def linAlgMsg : String := "Matrix is singular."

/-- A library instantiation mirroring scipy's documented behaviour on
degenerate inputs: triangulation-based griddata (every method except
`nearest`) over fewer than 3 points raises `QhullError`, and an `Rbf` fit
over fewer than 2 points yields a singular system raising `LinAlgError`. -/
def scipyDegenerateLib : InterpLib where
  griddataFit := fun m pts _ =>
    if m = "nearest" ∨ 3 ≤ pts.length then Except.ok (fun _ _ => some 0)
    else Except.error (PyError.qhullError qhullMsg)
  griddataBroadcast := fun Xg Yg => Except.ok (Xg, Yg)
  rbfFit := fun _ _ xs _ _ =>
    if 2 ≤ xs.length then Except.ok (fun _ _ => some 0)
    else Except.error (PyError.linAlgError linAlgMsg)

/-- A four-point table on the unit square: a configuration every scipy
method and kernel handles without raising. -/
def dfSquare : DataFrame :=
  [("lon", [some 0, some 1, some 0, some 1]),
   ("lat", [some 0, some 0, some 1, some 1]),
   ("t", [some 1, some 2, some 3, some 4])]

/-- The parameter record of a call to `getInterpArray_rbf`, mirroring the
Python signature of interpolators.py lines 69-75: the caller supplies the
table, the coordinate column names, the value column name, the grid and the
method name — and nothing else; in particular the signature has no smoothing
parameter. -/
structure RbfCall where
  df : DataFrame
  points_xy : String × String
  feature : String
  my_grid : Option (List Mat)
  my_method : Option String

/-- The smoothing value a given call hands to `Rbf`: line 128 passes the
literal `smooth=0.0` irrespective of the call's arguments. -/
def rbfSmoothUsed (c : RbfCall) : ℚ := rbfSmooth

/-- "The interface allows overriding the smoothing parameter": there are two
calls expressible through the interface that fit with different smoothing
values. -/
def rbfSmoothOverridable : Prop :=
  ∃ c₁ c₂ : RbfCall, rbfSmoothUsed c₁ ≠ rbfSmoothUsed c₂

/-- The sequence of logging/reporting side effects a `getInterpArray_rbf`
call performs: the source body (interpolators.py lines 104-134) contains no
logging, printing or warning statement, so every call emits none. -/
def rbfEmittedReports (c : RbfCall) : List String := []

/-- A concrete table used to instantiate the theorems below on explicit
inputs. -/
def dfEx : DataFrame := [("lon", [some 0]), ("lat", [some 0]), ("t", [some 1])]

/-- A concrete well-formed 1-by-1 grid. -/
def gridEx : Option (List Mat) := some [[[some 0]], [[some 0]]]

/-- `dfEx` with one extra row whose x-coordinate is NaN. -/
def dfEx2 : DataFrame :=
  [("lon", [some 0, none]), ("lat", [some 0, some 5]), ("t", [some 1, some 7])]

/-- `dfEx` with an extra unrelated column. -/
def dfExJunk : DataFrame :=
  [("lon", [some 0]), ("lat", [some 0]), ("t", [some 1]), ("junk", [some 9])]

/-- The grid-construction scenario table: x ranges over 1,2,3 and
y over 10,20. -/
def dfC4 : DataFrame :=
  [("lon", [some 1, some 2, some 3, some 1, some 2, some 3]),
   ("lat", [some 10, some 10, some 10, some 20, some 20, some 20])]

/-- A table whose coordinate columns are present but empty. -/
def dfEmptyCols : DataFrame := [("lon", []), ("lat", [])]

/-! ## Helper lemmas -/

theorem char_toLower_idem (c : Char) : c.toLower.toLower = c.toLower := by
  by_cases h : c.toNat ≥ 65 ∧ c.toNat ≤ 90
  · obtain ⟨h1, h2⟩ := h
    have hc : Char.ofNat c.toNat = c := Char.ofNat_toNat c
    obtain ⟨n, hn⟩ : ∃ n, c.toNat = n := ⟨_, rfl⟩
    rw [hn] at h1 h2 hc
    subst hc
    interval_cases n <;> decide
  · have hl : c.toLower = c := by
      simp only [Char.toLower]
      rw [if_neg h]
    rw [hl, hl]

theorem pyLower_idem (s : String) : pyLower (pyLower s) = pyLower s := by
  simp only [pyLower, List.map_map]
  exact congrArg String.mk (List.map_congr_left fun a _ => char_toLower_idem a)

theorem rbfKernelFor_some_lower (s : String) :
    rbfKernelFor (some (pyLower s)) = rbfKernelFor (some s) := by
  simp only [rbfKernelFor, Option.getD_some, pyLower_idem]

theorem rbfKernelFor_mem (m : Option String) : rbfKernelFor m ∈ rbfKernels := by
  simp only [rbfKernelFor]
  split
  · assumption
  · split
    · decide
    · decide

theorem rbfKernelFor_fixed (m : Option String) :
    rbfKernelFor (some (rbfKernelFor m)) = rbfKernelFor m := by
  have hk := rbfKernelFor_mem m
  revert hk
  generalize rbfKernelFor m = k
  intro hk
  simp only [rbfKernels, List.mem_cons, List.not_mem_nil, or_false] at hk
  rcases hk with rfl | rfl | rfl | rfl | rfl | rfl | rfl <;> decide

/-- Two method names that map to the same kernel give the same radial-basis
call, for every library behaviour, table and grid. -/
theorem rbf_method_congr (L : InterpLib) (df : DataFrame)
    (pxy : String × String) (f : String) (g : Option (List Mat))
    {m m' : Option String} (h : rbfKernelFor m = rbfKernelFor m') :
    getInterpArray_rbf L df pxy f g m = getInterpArray_rbf L df pxy f g m' := by
  cases g with
  | none => rfl
  | some l =>
    rcases l with _ | ⟨a, _ | ⟨b, _ | ⟨_, _⟩⟩⟩
    · rfl
    · rfl
    · simp only [getInterpArray_rbf]
      rw [h]
    · rfl

theorem except_bind_error {α β : Type} (e : PyError) (k : α → Except PyError β) :
    ((Except.error e : Except PyError α) >>= k) = Except.error e := rfl

theorem except_bind_ok {α β : Type} (a : α) (k : α → Except PyError β) :
    ((Except.ok a : Except PyError α) >>= k) = k a := rfl

/-- Evaluation of `getInterpArray_griddata` on a two-entry grid once the
three column lookups succeed: the outcome — returned array or raised
exception — is exactly that of the library call on the NaN-filtered data;
the operation adds no further check of its own. -/
theorem getInterpArray_griddata_eval (L : InterpLib) (df : DataFrame)
    (pxy : String × String) (f : String) (Xg Yg : Mat) (m : String)
    (cx cy vs : Col) (hx : dfGet df pxy.1 = Except.ok cx)
    (hy : dfGet df pxy.2 = Except.ok cy) (hv : dfGet df f = Except.ok vs) :
    getInterpArray_griddata L df pxy f (some [Xg, Yg]) m
      = griddataCall L m
          ((griddataFiltered (cx.zip cy) vs).map (fun r => r.1))
          ((griddataFiltered (cx.zip cy) vs).map (fun r => r.2)) Xg Yg := by
  simp only [getInterpArray_griddata, hx, hy, hv]
  rfl

/-- Evaluation of `getInterpArray_rbf` on a two-entry grid once the three
column lookups succeed: the outcome is exactly that of the library call on
the NaN-filtered data; the operation adds no further check of its own. -/
theorem getInterpArray_rbf_eval (L : InterpLib) (df : DataFrame)
    (pxy : String × String) (f : String) (Xg Yg : Mat) (m : Option String)
    (cx cy cz : Col) (hx : dfGet df pxy.1 = Except.ok cx)
    (hy : dfGet df pxy.2 = Except.ok cy) (hz : dfGet df f = Except.ok cz) :
    getInterpArray_rbf L df pxy f (some [Xg, Yg]) m
      = rbfCall L (rbfKernelFor m) rbfSmooth
          ((rbfFiltered cx cy cz).map (fun r => r.1))
          ((rbfFiltered cx cy cz).map (fun r => r.2.1))
          ((rbfFiltered cx cy cz).map (fun r => r.2.2)) Xg Yg := by
  simp only [getInterpArray_rbf, hx, hy, hz]
  rfl

/-- A grid argument failing the (only) grid check makes
`getInterpArray_griddata` raise the `ValueError` of line 52. -/
theorem getInterpArray_griddata_gridbad (L : InterpLib) (df : DataFrame)
    (pxy : String × String) (f : String) (g : Option (List Mat)) (m : String)
    (hg : gridArgOk g = false) :
    getInterpArray_griddata L df pxy f g m
      = Except.error (PyError.valueError gridErrMsg) := by
  cases g with
  | none => rfl
  | some l =>
    rcases l with _ | ⟨a, _ | ⟨b, _ | ⟨_, _⟩⟩⟩
    · rfl
    · rfl
    · simp [gridArgOk] at hg
    · rfl

/-- A grid argument failing the (only) grid check makes `getInterpArray_rbf`
raise the `ValueError` of line 105. -/
theorem getInterpArray_rbf_gridbad (L : InterpLib) (df : DataFrame)
    (pxy : String × String) (f : String) (g : Option (List Mat)) (m : Option String)
    (hg : gridArgOk g = false) :
    getInterpArray_rbf L df pxy f g m
      = Except.error (PyError.valueError gridErrMsg) := by
  cases g with
  | none => rfl
  | some l =>
    rcases l with _ | ⟨a, _ | ⟨b, _ | ⟨_, _⟩⟩⟩
    · rfl
    · rfl
    · simp [gridArgOk] at hg
    · rfl

theorem zip_zip_map {α β γ : Type} (ex : List α) : ∀ (ey : List β) (ez : List γ),
    (ex.zip ey).zip ez
      = ((ex.zip (ey.zip ez)).map fun t => ((t.1, t.2.1), t.2.2)) := by
  induction ex with
  | nil => intro ey ez; simp
  | cons a ex ih =>
    intro ey ez
    cases ey with
    | nil => simp
    | cons b ey =>
      cases ez with
      | nil => simp
      | cons c ez => simp [ih]

/-- Rows that all contain a NaN are entirely removed by the rbf mask. -/
theorem rbfFiltered_nan_nil (ex ey ez : Col)
    (hnan : ∀ t ∈ ex.zip (ey.zip ez),
      isnan t.1 = true ∨ isnan t.2.1 = true ∨ isnan t.2.2 = true) :
    rbfFiltered ex ey ez = [] := by
  rw [rbfFiltered, List.filter_eq_nil_iff]
  intro t ht
  rcases hnan t ht with h | h | h <;> simp [h]

/-- Rows that all contain a NaN are entirely removed by the griddata mask. -/
theorem griddataFiltered_nan_nil (ex ey ez : Col)
    (hnan : ∀ t ∈ ex.zip (ey.zip ez),
      isnan t.1 = true ∨ isnan t.2.1 = true ∨ isnan t.2.2 = true) :
    griddataFiltered (ex.zip ey) ez = [] := by
  rw [griddataFiltered, zip_zip_map, List.filter_map]
  have h0 : (ex.zip (ey.zip ez)).filter
      ((fun r => !isnan r.2 && !(isnan r.1.1 || isnan r.1.2)) ∘
        fun t => ((t.1, t.2.1), t.2.2)) = [] := by
    rw [List.filter_eq_nil_iff]
    intro t ht
    rcases hnan t ht with h | h | h <;> simp [Function.comp, h]
  rw [h0, List.map_nil]

/-- Appending NaN-containing rows leaves the rbf-filtered data unchanged. -/
theorem rbfFiltered_append_nan (xs ys zs ex ey ez : Col)
    (hxy : xs.length = ys.length) (hxz : xs.length = zs.length)
    (hnan : ∀ t ∈ ex.zip (ey.zip ez),
      isnan t.1 = true ∨ isnan t.2.1 = true ∨ isnan t.2.2 = true) :
    rbfFiltered (xs ++ ex) (ys ++ ey) (zs ++ ez) = rbfFiltered xs ys zs := by
  have hyz : ys.length = zs.length := hxy.symm.trans hxz
  have h1 : (ys ++ ey).zip (zs ++ ez) = ys.zip zs ++ ey.zip ez :=
    List.zip_append hyz
  have h2 : xs.length = (ys.zip zs).length := by
    rw [List.length_zip, ← hxy, ← hxz, Nat.min_self]
  rw [rbfFiltered, h1, List.zip_append h2, List.filter_append]
  have h3 := rbfFiltered_nan_nil ex ey ez hnan
  rw [rbfFiltered] at h3
  rw [h3, List.append_nil, rbfFiltered]

/-- Appending NaN-containing rows leaves the griddata-filtered data
unchanged. -/
theorem griddataFiltered_append_nan (xs ys zs ex ey ez : Col)
    (hxy : xs.length = ys.length) (hxz : xs.length = zs.length)
    (hnan : ∀ t ∈ ex.zip (ey.zip ez),
      isnan t.1 = true ∨ isnan t.2.1 = true ∨ isnan t.2.2 = true) :
    griddataFiltered ((xs ++ ex).zip (ys ++ ey)) (zs ++ ez)
      = griddataFiltered (xs.zip ys) zs := by
  have h1 : (xs ++ ex).zip (ys ++ ey) = xs.zip ys ++ ex.zip ey :=
    List.zip_append hxy
  have h2 : (xs.zip ys).length = zs.length := by
    rw [List.length_zip, ← hxy, Nat.min_self]
    exact hxz
  rw [griddataFiltered, h1, List.zip_append h2, List.filter_append]
  have h3 := griddataFiltered_nan_nil ex ey ez hnan
  rw [griddataFiltered] at h3
  rw [h3, List.append_nil, griddataFiltered]

/-! ## The claims -/

/-- Claim C1: in the radial-basis operation, a method name that is one of
the seven supported kernel names is used verbatim as the RBF kernel;
requesting "nearest" yields a result identical to requesting "linear" on the
same points and grid; any other (unrecognized after the lowercasing the
matching applies, cf. C10) name yields a result identical to requesting
"thin_plate". -/
theorem c1_rbf_kernel_mapping (L : InterpLib) (df : DataFrame)
    (pxy : String × String) (f : String) (g : Option (List Mat)) (s : String) :
    (s ∈ rbfKernels → rbfKernelFor (some s) = s)
    ∧ getInterpArray_rbf L df pxy f g (some "nearest")
        = getInterpArray_rbf L df pxy f g (some "linear")
    ∧ (pyLower s ∉ rbfKernels → pyLower s ≠ "nearest" →
        getInterpArray_rbf L df pxy f g (some s)
          = getInterpArray_rbf L df pxy f g (some "thin_plate")) := by
  refine ⟨?_, ?_, ?_⟩
  · intro hs
    simp only [rbfKernels, List.mem_cons, List.not_mem_nil, or_false] at hs
    rcases hs with rfl | rfl | rfl | rfl | rfl | rfl | rfl <;> decide
  · exact rbf_method_congr L df pxy f g (by decide)
  · intro h1 h2
    apply rbf_method_congr L df pxy f g
    have h3 : rbfKernelFor (some s) = "thin_plate" := by
      simp only [rbfKernelFor, Option.getD_some]
      rw [if_neg h1, if_neg h2]
    exact h3.trans (by decide)

/-- Concrete instances of C1: "gaussian" is kept verbatim, "nearest"
matches "linear", and the unrecognized "foobar" matches "thin_plate". -/
theorem c1_rbf_kernel_mapping_witness :
    rbfKernelFor (some "gaussian") = "gaussian"
    ∧ getInterpArray_rbf probeLib dfEx ("lon", "lat") "t" gridEx (some "nearest")
        = getInterpArray_rbf probeLib dfEx ("lon", "lat") "t" gridEx (some "linear")
    ∧ getInterpArray_rbf probeLib dfEx ("lon", "lat") "t" gridEx (some "foobar")
        = getInterpArray_rbf probeLib dfEx ("lon", "lat") "t" gridEx (some "thin_plate") :=
  ⟨(c1_rbf_kernel_mapping probeLib dfEx ("lon", "lat") "t" gridEx "gaussian").1 (by decide),
   (c1_rbf_kernel_mapping probeLib dfEx ("lon", "lat") "t" gridEx "gaussian").2.1,
   (c1_rbf_kernel_mapping probeLib dfEx ("lon", "lat") "t" gridEx "foobar").2.2
     (by decide) (by decide)⟩

/-- Claim C10: method-name matching in the radial-basis operation is
case-insensitive (a name and its lowercasing yield identical results), and a
method name of None maps to the thin_plate kernel instead of raising an
error (its call equals an explicit "thin_plate" call). -/
theorem c10_case_insensitive_none_thin_plate (L : InterpLib) (df : DataFrame)
    (pxy : String × String) (f : String) (g : Option (List Mat)) (s : String) :
    getInterpArray_rbf L df pxy f g (some s)
      = getInterpArray_rbf L df pxy f g (some (pyLower s))
    ∧ rbfKernelFor none = "thin_plate"
    ∧ getInterpArray_rbf L df pxy f g none
      = getInterpArray_rbf L df pxy f g (some "thin_plate") :=
  ⟨rbf_method_congr L df pxy f g (rbfKernelFor_some_lower s).symm, by decide,
   rbf_method_congr L df pxy f g (by decide)⟩

/-- Claim C9 (amended): whenever the radial-basis operation substitutes a
kernel name (the lowercased request differs from the kernel used), the
substitution is silent: the call emits no report, and its entire observable
outcome is identical to explicitly requesting the substituted kernel. -/
theorem c9_fallback_is_silent (L : InterpLib) (df : DataFrame)
    (pxy : String × String) (f : String) (g : Option (List Mat)) (s : String)
    (hsub : pyLower s ≠ rbfKernelFor (some s)) :
    getInterpArray_rbf L df pxy f g (some s)
      = getInterpArray_rbf L df pxy f g (some (rbfKernelFor (some s)))
    ∧ rbfEmittedReports ⟨df, pxy, f, g, some s⟩ = [] :=
  ⟨rbf_method_congr L df pxy f g (rbfKernelFor_fixed (some s)).symm, rfl⟩

/-- Concrete instance of C9 (amended) at the unrecognized name "foobar". -/
theorem c9_fallback_is_silent_witness :
    (pyLower "foobar" ≠ rbfKernelFor (some "foobar"))
    ∧ getInterpArray_rbf probeLib dfEx ("lon", "lat") "t" gridEx (some "foobar")
        = getInterpArray_rbf probeLib dfEx ("lon", "lat") "t" gridEx
            (some (rbfKernelFor (some "foobar"))) :=
  ⟨by decide,
   (c9_fallback_is_silent probeLib dfEx ("lon", "lat") "t" gridEx "foobar" (by decide)).1⟩

/-- Claim C9 counterexample: at the concrete call requesting the
unrecognized kernel name "foobar", a substitution to "thin_plate" occurs,
yet the call emits no report and its observable outcome coincides exactly
with that of an explicit "thin_plate" request (here under a library whose
values reveal the kernel used): the substitution is performed silently, not
logged or reported. -/
theorem c9_counterexample :
    rbfKernelFor (some "foobar") = "thin_plate"
    ∧ rbfEmittedReports ⟨dfEx, ("lon", "lat"), "t", gridEx, some "foobar"⟩ = []
    ∧ getInterpArray_rbf probeLib dfEx ("lon", "lat") "t" gridEx (some "foobar")
        = Except.ok [[some 1]]
    ∧ getInterpArray_rbf probeLib dfEx ("lon", "lat") "t" gridEx (some "thin_plate")
        = Except.ok [[some 1]] :=
  ⟨by decide, rfl, by decide, by decide⟩

/-- Claim C7 counterexample: the interface does not allow overriding the
smoothing parameter — no two expressible calls fit with different smoothing
values, refuting the claim's "which the interface allows". -/
theorem c7_counterexample : rbfSmoothOverridable = False :=
  eq_false (by rintro ⟨c1, c2, h⟩; exact h rfl)

/-- Claim C7 (amended): the radial-basis operation fits the model with its
smoothing parameter equal to zero on every call: the smooth argument passed
to Rbf is the constant 0, and the call's outcome depends on the library's
fitting behaviour only at smoothing zero.  The interface offers no
override. -/
theorem c7_smoothing_always_zero (L L2 : InterpLib) (df : DataFrame)
    (pxy : String × String) (f : String) (g : Option (List Mat)) (m : Option String)
    (hL : ∀ k x y z, L.rbfFit k rbfSmooth x y z = L2.rbfFit k rbfSmooth x y z) :
    rbfSmooth = 0
    ∧ getInterpArray_rbf L df pxy f g m = getInterpArray_rbf L2 df pxy f g m := by
  refine ⟨rfl, ?_⟩
  cases g with
  | none => rfl
  | some l =>
    rcases l with _ | ⟨a, _ | ⟨b, _ | ⟨_, _⟩⟩⟩
    · rfl
    · rfl
    · simp only [getInterpArray_rbf]
      cases dfGet df pxy.1 with
      | error e => rfl
      | ok x =>
        cases dfGet df pxy.2 with
        | error e => rfl
        | ok y =>
          cases dfGet df f with
          | error e => rfl
          | ok z => simp only [rbfCall, hL]
    · rfl

/-- Concrete instance of C7 (amended). -/
theorem c7_smoothing_always_zero_witness :
    rbfSmooth = 0
    ∧ getInterpArray_rbf constLib dfEx ("lon", "lat") "t" gridEx (some "cubic")
      = getInterpArray_rbf constLib dfEx ("lon", "lat") "t" gridEx (some "cubic") :=
  c7_smoothing_always_zero constLib constLib dfEx ("lon", "lat") "t" gridEx (some "cubic")
    (fun _ _ _ _ => rfl)

/-- Claim C2: appending to the table extra rows whose x-coordinate,
y-coordinate or selected value field is NaN leaves the output of both
interpolation operations unchanged, for every grid, method and library
behaviour: every such row is removed by the NaN mask before interpolation. -/
theorem c2_nan_rows_no_effect (L : InterpLib) (df1 df2 : DataFrame)
    (pxy : String × String) (f : String) (g : Option (List Mat))
    (m : String) (m2 : Option String) (xs ys zs ex ey ez : Col)
    (hxy : xs.length = ys.length) (hxz : xs.length = zs.length)
    (hx1 : dfGet df1 pxy.1 = Except.ok xs) (hy1 : dfGet df1 pxy.2 = Except.ok ys)
    (hz1 : dfGet df1 f = Except.ok zs)
    (hx2 : dfGet df2 pxy.1 = Except.ok (xs ++ ex))
    (hy2 : dfGet df2 pxy.2 = Except.ok (ys ++ ey))
    (hz2 : dfGet df2 f = Except.ok (zs ++ ez))
    (hnan : ∀ t ∈ ex.zip (ey.zip ez),
      isnan t.1 = true ∨ isnan t.2.1 = true ∨ isnan t.2.2 = true) :
    getInterpArray_griddata L df2 pxy f g m = getInterpArray_griddata L df1 pxy f g m
    ∧ getInterpArray_rbf L df2 pxy f g m2 = getInterpArray_rbf L df1 pxy f g m2 := by
  constructor
  · cases g with
    | none => rfl
    | some l =>
      rcases l with _ | ⟨Xg, _ | ⟨Yg, _ | ⟨_, _⟩⟩⟩
      · rfl
      · rfl
      · rw [getInterpArray_griddata_eval L df2 pxy f Xg Yg m _ _ _ hx2 hy2 hz2,
          getInterpArray_griddata_eval L df1 pxy f Xg Yg m _ _ _ hx1 hy1 hz1,
          griddataFiltered_append_nan xs ys zs ex ey ez hxy hxz hnan]
      · rfl
  · cases g with
    | none => rfl
    | some l =>
      rcases l with _ | ⟨Xg, _ | ⟨Yg, _ | ⟨_, _⟩⟩⟩
      · rfl
      · rfl
      · rw [getInterpArray_rbf_eval L df2 pxy f Xg Yg m2 _ _ _ hx2 hy2 hz2,
          getInterpArray_rbf_eval L df1 pxy f Xg Yg m2 _ _ _ hx1 hy1 hz1,
          rbfFiltered_append_nan xs ys zs ex ey ez hxy hxz hnan]
      · rfl

/-- Concrete instance of C2: adding a NaN-coordinate row to `dfEx` leaves
both interpolation results unchanged. -/
theorem c2_nan_rows_no_effect_witness :
    getInterpArray_griddata constLib dfEx2 ("lon", "lat") "t" gridEx "cubic"
      = getInterpArray_griddata constLib dfEx ("lon", "lat") "t" gridEx "cubic"
    ∧ getInterpArray_rbf constLib dfEx2 ("lon", "lat") "t" gridEx (some "cubic")
      = getInterpArray_rbf constLib dfEx ("lon", "lat") "t" gridEx (some "cubic") :=
  c2_nan_rows_no_effect constLib dfEx dfEx2 ("lon", "lat") "t" gridEx "cubic"
    (some "cubic") [some 0] [some 0] [some 1] [none] [some 5] [some 7]
    rfl rfl rfl rfl rfl rfl rfl rfl (by decide)

theorem matShape_evalOnGrid (f : PyFloat → PyFloat → PyFloat) (Xg : Mat) :
    ∀ Yg : Mat, matShape Xg = matShape Yg →
      matShape (evalOnGrid f Xg Yg) = matShape Xg := by
  induction Xg with
  | nil => intro Yg h; rfl
  | cons x Xg ih =>
    intro Yg h
    cases Yg with
    | nil => simp [matShape] at h
    | cons y Yg =>
      simp only [matShape, List.map_cons, List.cons.injEq] at h
      have he : evalOnGrid f (x :: Xg) (y :: Yg)
          = List.zipWith f x y :: evalOnGrid f Xg Yg := rfl
      rw [he]
      simp only [matShape, List.map_cons, List.cons.injEq]
      constructor
      · rw [List.length_zipWith, h.1, Nat.min_self]
      · have := ih Yg (by simpa [matShape] using h.2)
        simpa [matShape] using this

/-- Claim C5: for every valid input (three readable columns and a grid of
two same-shaped arrays), both strategies with any method or kernel, and
every library behaviour: whenever the call returns an array (rather than
propagating a library exception), that array has exactly the shape of the
grid coordinate arrays Xg and Yg. -/
theorem c5_shape_invariant (L : InterpLib) (df : DataFrame) (pxy : String × String)
    (f : String) (Xg Yg : Mat) (m : String) (m2 : Option String) (cx cy cz : Col)
    (hshape : matShape Xg = matShape Yg)
    (hx : dfGet df pxy.1 = Except.ok cx) (hy : dfGet df pxy.2 = Except.ok cy)
    (hz : dfGet df f = Except.ok cz) :
    (∀ Z, getInterpArray_griddata L df pxy f (some [Xg, Yg]) m = Except.ok Z →
      matShape Z = matShape Xg ∧ matShape Z = matShape Yg)
    ∧ (∀ Z, getInterpArray_rbf L df pxy f (some [Xg, Yg]) m2 = Except.ok Z →
      matShape Z = matShape Xg ∧ matShape Z = matShape Yg) := by
  constructor
  · intro Z hZ
    rw [getInterpArray_griddata_eval L df pxy f Xg Yg m cx cy cz hx hy hz] at hZ
    simp only [griddataCall] at hZ
    rw [if_pos hshape] at hZ
    cases hfit : L.griddataFit m ((griddataFiltered (cx.zip cy) cz).map (fun r => r.1))
        ((griddataFiltered (cx.zip cy) cz).map (fun r => r.2)) with
    | error e =>
      rw [hfit, except_bind_error] at hZ
      exact absurd hZ (by simp)
    | ok interp =>
      rw [hfit, except_bind_ok] at hZ
      obtain rfl := Except.ok.inj hZ
      exact ⟨matShape_evalOnGrid interp Xg Yg hshape,
        (matShape_evalOnGrid interp Xg Yg hshape).trans hshape⟩
  · intro Z hZ
    rw [getInterpArray_rbf_eval L df pxy f Xg Yg m2 cx cy cz hx hy hz] at hZ
    simp only [rbfCall] at hZ
    cases hfit : L.rbfFit (rbfKernelFor m2) rbfSmooth
        ((rbfFiltered cx cy cz).map (fun r => r.1))
        ((rbfFiltered cx cy cz).map (fun r => r.2.1))
        ((rbfFiltered cx cy cz).map (fun r => r.2.2)) with
    | error e =>
      rw [hfit, except_bind_error] at hZ
      exact absurd hZ (by simp)
    | ok rbf =>
      rw [hfit, except_bind_ok, if_pos hshape] at hZ
      obtain rfl := Except.ok.inj hZ
      exact ⟨matShape_evalOnGrid rbf Xg Yg hshape,
        (matShape_evalOnGrid rbf Xg Yg hshape).trans hshape⟩

/-- Concrete instance of C5 on a four-point table (a configuration every
scipy method handles) and a 2-by-2 grid, under a concrete succeeding
library. -/
theorem c5_shape_invariant_witness :
    getInterpArray_griddata constLib dfSquare ("lon", "lat") "t"
        (some [[[some 0, some 1], [some 0, some 1]],
               [[some 0, some 0], [some 1, some 1]]]) "nearest"
      = Except.ok [[some 0, some 0], [some 0, some 0]]
    ∧ (matShape [[some 0, some 0], [some 0, some 0]]
        = matShape [[some 0, some 1], [some 0, some 1]]
      ∧ matShape [[some 0, some 0], [some 0, some 0]]
        = matShape [[some 0, some 0], [some 1, some 1]])
    ∧ getInterpArray_rbf constLib dfSquare ("lon", "lat") "t"
        (some [[[some 0, some 1], [some 0, some 1]],
               [[some 0, some 0], [some 1, some 1]]]) (some "linear")
      = Except.ok [[some 0, some 0], [some 0, some 0]]
    ∧ (matShape [[some 0, some 0], [some 0, some 0]]
        = matShape [[some 0, some 1], [some 0, some 1]]
      ∧ matShape [[some 0, some 0], [some 0, some 0]]
        = matShape [[some 0, some 0], [some 1, some 1]]) :=
  ⟨by decide,
   (c5_shape_invariant constLib dfSquare ("lon", "lat") "t"
      [[some 0, some 1], [some 0, some 1]] [[some 0, some 0], [some 1, some 1]]
      "nearest" (some "linear")
      [some 0, some 1, some 0, some 1] [some 0, some 0, some 1, some 1]
      [some 1, some 2, some 3, some 4] rfl rfl rfl rfl).1
      [[some 0, some 0], [some 0, some 0]] (by decide),
   by decide,
   (c5_shape_invariant constLib dfSquare ("lon", "lat") "t"
      [[some 0, some 1], [some 0, some 1]] [[some 0, some 0], [some 1, some 1]]
      "nearest" (some "linear")
      [some 0, some 1, some 0, some 1] [some 0, some 0, some 1, some 1]
      [some 1, some 2, some 3, some 4] rfl rfl rfl rfl).2
      [[some 0, some 0], [some 0, some 0]] (by decide)⟩

/-- Claim C3 (amended): the only precondition either interpolation operation
checks itself is that the grid argument is present with exactly two entries,
failing with the `ValueError` of lines 52/105.  There is no shape-equality
check and no minimum-point-count check in the code, and no
`InvalidGridError` or `InsufficientDataError` exists: past the grid-presence
check, every failure is the underlying library call's exception, propagated
unchanged — a fit exception (such as scipy's `QhullError` on a degenerate
triangulation or `LinAlgError` on a singular radial-basis system) surfaces
as-is, and mismatched grid shapes on the radial-basis path surface as
`Rbf.__call__`'s own `ValueError`, not as a typed error of this code. -/
theorem c3_checked_preconditions (L : InterpLib) (df : DataFrame)
    (pxy : String × String) (f : String) (g : Option (List Mat))
    (m : String) (m2 : Option String) :
    (gridArgOk g = false →
      getInterpArray_griddata L df pxy f g m
          = Except.error (PyError.valueError gridErrMsg)
      ∧ getInterpArray_rbf L df pxy f g m2
          = Except.error (PyError.valueError gridErrMsg))
    ∧ (∀ Xg Yg cx cy vs e, dfGet df pxy.1 = Except.ok cx →
        dfGet df pxy.2 = Except.ok cy → dfGet df f = Except.ok vs →
        matShape Xg = matShape Yg →
        L.griddataFit m ((griddataFiltered (cx.zip cy) vs).map (fun r => r.1))
          ((griddataFiltered (cx.zip cy) vs).map (fun r => r.2)) = Except.error e →
        getInterpArray_griddata L df pxy f (some [Xg, Yg]) m = Except.error e)
    ∧ (∀ Xg Yg cx cy cz e, dfGet df pxy.1 = Except.ok cx →
        dfGet df pxy.2 = Except.ok cy → dfGet df f = Except.ok cz →
        L.rbfFit (rbfKernelFor m2) rbfSmooth
          ((rbfFiltered cx cy cz).map (fun r => r.1))
          ((rbfFiltered cx cy cz).map (fun r => r.2.1))
          ((rbfFiltered cx cy cz).map (fun r => r.2.2)) = Except.error e →
        getInterpArray_rbf L df pxy f (some [Xg, Yg]) m2 = Except.error e)
    ∧ (∀ Xg Yg cx cy cz i, dfGet df pxy.1 = Except.ok cx →
        dfGet df pxy.2 = Except.ok cy → dfGet df f = Except.ok cz →
        L.rbfFit (rbfKernelFor m2) rbfSmooth
          ((rbfFiltered cx cy cz).map (fun r => r.1))
          ((rbfFiltered cx cy cz).map (fun r => r.2.1))
          ((rbfFiltered cx cy cz).map (fun r => r.2.2)) = Except.ok i →
        matShape Xg ≠ matShape Yg →
        getInterpArray_rbf L df pxy f (some [Xg, Yg]) m2
          = Except.error (PyError.valueError rbfShapeErrMsg)) := by
  refine ⟨?_, ?_, ?_, ?_⟩
  · intro hg
    exact ⟨getInterpArray_griddata_gridbad L df pxy f g m hg,
      getInterpArray_rbf_gridbad L df pxy f g m2 hg⟩
  · intro Xg Yg cx cy vs e hx hy hv hsh hfit
    rw [getInterpArray_griddata_eval L df pxy f Xg Yg m cx cy vs hx hy hv]
    simp only [griddataCall]
    rw [if_pos hsh, hfit, except_bind_error]
  · intro Xg Yg cx cy cz e hx hy hz hfit
    rw [getInterpArray_rbf_eval L df pxy f Xg Yg m2 cx cy cz hx hy hz]
    simp only [rbfCall]
    rw [hfit, except_bind_error]
  · intro Xg Yg cx cy cz i hx hy hz hfit hne
    rw [getInterpArray_rbf_eval L df pxy f Xg Yg m2 cx cy cz hx hy hz]
    simp only [rbfCall]
    rw [hfit, except_bind_ok, if_neg hne]

/-- Concrete instances of C3 (amended): a missing grid raises the check's
`ValueError`; a degenerate single-point table surfaces the library's
`QhullError` (griddata cubic) and `LinAlgError` (Rbf fit); mismatched grid
shapes on the radial-basis path surface `Rbf.__call__`'s `ValueError`. -/
theorem c3_checked_preconditions_witness :
    (getInterpArray_griddata constLib dfEx ("lon", "lat") "t" none "cubic"
        = Except.error (PyError.valueError gridErrMsg)
      ∧ getInterpArray_rbf constLib dfEx ("lon", "lat") "t" none (some "cubic")
        = Except.error (PyError.valueError gridErrMsg))
    ∧ getInterpArray_griddata scipyDegenerateLib dfEx ("lon", "lat") "t"
        (some [[[some 0]], [[some 0]]]) "cubic"
        = Except.error (PyError.qhullError qhullMsg)
    ∧ getInterpArray_rbf scipyDegenerateLib dfEx ("lon", "lat") "t"
        (some [[[some 0]], [[some 0]]]) (some "cubic")
        = Except.error (PyError.linAlgError linAlgMsg)
    ∧ getInterpArray_rbf constLib dfEx ("lon", "lat") "t"
        (some [[[some 0]], [[some 0], [some 0]]]) (some "cubic")
        = Except.error (PyError.valueError rbfShapeErrMsg) :=
  ⟨(c3_checked_preconditions constLib dfEx ("lon", "lat") "t" none "cubic"
      (some "cubic")).1 rfl,
   (c3_checked_preconditions scipyDegenerateLib dfEx ("lon", "lat") "t"
      (some [[[some 0]], [[some 0]]]) "cubic" (some "cubic")).2.1
      [[some 0]] [[some 0]] [some 0] [some 0] [some 1]
      (PyError.qhullError qhullMsg) rfl rfl rfl rfl rfl,
   (c3_checked_preconditions scipyDegenerateLib dfEx ("lon", "lat") "t"
      (some [[[some 0]], [[some 0]]]) "cubic" (some "cubic")).2.2.1
      [[some 0]] [[some 0]] [some 0] [some 0] [some 1]
      (PyError.linAlgError linAlgMsg) rfl rfl rfl rfl,
   (c3_checked_preconditions constLib dfEx ("lon", "lat") "t"
      (some [[[some 0]], [[some 0], [some 0]]]) "cubic" (some "cubic")).2.2.2
      [[some 0]] [[some 0], [some 0]] [some 0] [some 0] [some 1]
      (fun _ _ => some 0) rfl rfl rfl rfl (by decide)⟩

/-- Claim C3 counterexample: at a concrete call whose grid has two arrays of
different shapes (shape `[1]` versus `[1, 1]`) and whose table supplies a
single point — fewer than the three the claim requires for the piecewise
"cubic" strategy — the code's own validation passes (lines 51-52/104-105
accept any present two-entry grid), and under a library model that raises
exactly as scipy does on this degenerate input, the observed failures are
the library's `QhullError` and `LinAlgError`: neither call fails with an
`InvalidGridError` or an `InsufficientDataError`, error classes that do not
exist in the code. -/
theorem c3_counterexample :
    gridArgOk (some [[[some 0]], [[some 0], [some 0]]]) = true
    ∧ matShape [[some 0]] = [1]
    ∧ matShape [[some 0], [some 0]] = [1, 1]
    ∧ getInterpArray_griddata scipyDegenerateLib dfEx ("lon", "lat") "t"
        (some [[[some 0]], [[some 0], [some 0]]]) "cubic"
        = Except.error (PyError.qhullError qhullMsg)
    ∧ getInterpArray_rbf scipyDegenerateLib dfEx ("lon", "lat") "t"
        (some [[[some 0]], [[some 0], [some 0]]]) (some "cubic")
        = Except.error (PyError.linAlgError linAlgMsg) :=
  ⟨rfl, rfl, rfl, by decide, by decide⟩

theorem npSort_sorted (l : Col) : List.Sorted pyLE (npSort l) :=
  List.sorted_insertionSort pyLE l

theorem npSort_mem (l : Col) (v : PyFloat) : v ∈ npSort l ↔ v ∈ l :=
  (List.perm_insertionSort pyLE l).mem_iff

theorem npSort_dedup_nodup (l : Col) : (npSort (pdUnique l)).Nodup :=
  ((List.perm_insertionSort pyLE (pdUnique l)).nodup_iff).mpr (List.nodup_dedup l)

/-- Claim C4: for an input table with at least one record, the grid builder
returns the cartesian-product mesh of the distinct x-values and distinct
y-values, each sorted ascending, with rows indexed by the sorted y-values
and columns by the sorted x-values. -/
theorem c4_grid_builder (df : DataFrame) (px py : String) (xs ys : Col)
    (hx : dfGet df px = Except.ok xs) (hy : dfGet df py = Except.ok ys)
    (hx0 : xs ≠ []) (hy0 : ys ≠ []) :
    get_grid_from_df df (px, py)
      = Except.ok (meshgrid (npSort (pdUnique xs)) (npSort (pdUnique ys)))
    ∧ (meshgrid (npSort (pdUnique xs)) (npSort (pdUnique ys))).1
        = (npSort (pdUnique ys)).map (fun _ => npSort (pdUnique xs))
    ∧ (meshgrid (npSort (pdUnique xs)) (npSort (pdUnique ys))).2
        = (npSort (pdUnique ys)).map (fun v => (npSort (pdUnique xs)).map (fun _ => v))
    ∧ List.Sorted pyLE (npSort (pdUnique xs))
    ∧ List.Sorted pyLE (npSort (pdUnique ys))
    ∧ (npSort (pdUnique xs)).Nodup ∧ (npSort (pdUnique ys)).Nodup
    ∧ (∀ v, v ∈ npSort (pdUnique xs) ↔ v ∈ xs)
    ∧ (∀ v, v ∈ npSort (pdUnique ys) ↔ v ∈ ys) := by
  refine ⟨?_, rfl, rfl, npSort_sorted _, npSort_sorted _,
    npSort_dedup_nodup _, npSort_dedup_nodup _,
    fun v => (npSort_mem _ v).trans List.mem_dedup,
    fun v => (npSort_mem _ v).trans List.mem_dedup⟩
  simp only [get_grid_from_df, hx, hy]
  rfl

/-- Concrete instance of C4, the specification's scenario: x over 1,2,3 and
y over 10,20 produce the 2-by-3 mesh with row 0 at y=10, row 1 at y=20 and
columns ordered 1,2,3. -/
theorem c4_grid_builder_witness :
    get_grid_from_df dfC4 ("lon", "lat")
      = Except.ok ([[some 1, some 2, some 3], [some 1, some 2, some 3]],
          [[some 10, some 10, some 10], [some 20, some 20, some 20]]) :=
  (c4_grid_builder dfC4 "lon" "lat"
    [some 1, some 2, some 3, some 1, some 2, some 3]
    [some 10, some 10, some 10, some 20, some 20, some 20]
    rfl rfl (by decide) (by decide)).1.trans (by decide)

/-- Claim C6 (amended): the grid builder performs no input validation of its
own: a missing coordinate field propagates the table lookup's `KeyError`
(not an `InvalidInputError`, which does not exist in the code), and whenever
both coordinate fields are present — even empty — the call succeeds with the
mesh of their sorted distinct values. -/
theorem c6_grid_builder_no_validation (df : DataFrame) (px py : String) :
    (df.lookup px = none →
      get_grid_from_df df (px, py) = Except.error (PyError.keyError px))
    ∧ (∀ xs, df.lookup px = some xs → df.lookup py = none →
      get_grid_from_df df (px, py) = Except.error (PyError.keyError py))
    ∧ (∀ xs ys, df.lookup px = some xs → df.lookup py = some ys →
      get_grid_from_df df (px, py)
        = Except.ok (meshgrid (npSort (pdUnique xs)) (npSort (pdUnique ys)))) := by
  refine ⟨?_, ?_, ?_⟩
  · intro h
    simp only [get_grid_from_df, dfGet, h]
    rfl
  · intro xs h1 h2
    simp only [get_grid_from_df, dfGet, h1, h2]
    rfl
  · intro xs ys h1 h2
    simp only [get_grid_from_df, dfGet, h1, h2]
    rfl

/-- Concrete instance of C6 (amended): a table without a "lon" column gives
the `KeyError`; present columns give the mesh. -/
theorem c6_grid_builder_no_validation_witness :
    get_grid_from_df [("lat", [some 0])] ("lon", "lat")
      = Except.error (PyError.keyError "lon")
    ∧ get_grid_from_df dfEx ("lon", "lat")
      = Except.ok (meshgrid (npSort (pdUnique [some 0])) (npSort (pdUnique [some 0]))) :=
  ⟨(c6_grid_builder_no_validation [("lat", [some 0])] "lon" "lat").1 rfl,
   (c6_grid_builder_no_validation dfEx "lon" "lat").2.2 [some 0] [some 0] rfl rfl⟩

/-- Claim C6 counterexample: coordinate fields that are present but
completely empty do not make the grid builder fail — the call succeeds with
an empty mesh, whereas the claim requires an `InvalidInputError` for empty
coordinate fields (an error class that does not exist in the code). -/
theorem c6_counterexample :
    get_grid_from_df dfEmptyCols ("lon", "lat") = Except.ok ([], []) := by decide

/-- Claim C8: the operations read only the two named coordinate columns and
the named value column: two tables that agree on those columns produce
identical outputs from both interpolation operations and from the grid
builder, whatever other columns either table carries. -/
theorem c8_only_named_columns (L : InterpLib) (df1 df2 : DataFrame)
    (pxy : String × String) (f : String) (g : Option (List Mat))
    (m : String) (m2 : Option String)
    (hx : dfGet df1 pxy.1 = dfGet df2 pxy.1)
    (hy : dfGet df1 pxy.2 = dfGet df2 pxy.2)
    (hf : dfGet df1 f = dfGet df2 f) :
    getInterpArray_griddata L df1 pxy f g m = getInterpArray_griddata L df2 pxy f g m
    ∧ getInterpArray_rbf L df1 pxy f g m2 = getInterpArray_rbf L df2 pxy f g m2
    ∧ get_grid_from_df df1 pxy = get_grid_from_df df2 pxy := by
  refine ⟨?_, ?_, ?_⟩
  · cases g with
    | none => rfl
    | some l =>
      rcases l with _ | ⟨Xg, _ | ⟨Yg, _ | ⟨_, _⟩⟩⟩
      · rfl
      · rfl
      · simp only [getInterpArray_griddata, hx, hy, hf]
      · rfl
  · cases g with
    | none => rfl
    | some l =>
      rcases l with _ | ⟨Xg, _ | ⟨Yg, _ | ⟨_, _⟩⟩⟩
      · rfl
      · rfl
      · simp only [getInterpArray_rbf, hx, hy, hf]
      · rfl
  · simp only [get_grid_from_df, hx, hy]

/-- Concrete instance of C8: an extra unrelated column changes nothing. -/
theorem c8_only_named_columns_witness :
    getInterpArray_griddata constLib dfEx ("lon", "lat") "t" gridEx "cubic"
      = getInterpArray_griddata constLib dfExJunk ("lon", "lat") "t" gridEx "cubic"
    ∧ getInterpArray_rbf constLib dfEx ("lon", "lat") "t" gridEx (some "cubic")
      = getInterpArray_rbf constLib dfExJunk ("lon", "lat") "t" gridEx (some "cubic")
    ∧ get_grid_from_df dfEx ("lon", "lat") = get_grid_from_df dfExJunk ("lon", "lat") :=
  c8_only_named_columns constLib dfEx dfExJunk ("lon", "lat") "t" gridEx "cubic"
    (some "cubic") rfl rfl rfl
